import Mathlib

/- Verification of the atomic chess engine implemented in ChessVar.py.

The board is an 8x8 grid of two-character cell strings ("00" for empty,
otherwise a color letter followed by a kind letter).  All definitions below
are direct shallow embeddings of the Python methods of the ChessVar class:
mutation of `self._board`, `self._turn` and `self._game_state` becomes
explicit state passing, and the ValueError raised by `int()` on a non-digit
character becomes an `Option` result (`none` models the raised exception). -/

namespace ChessVar

/-- A board maps (row, column) indices to cell strings; the engine only ever
touches indices in 0..7. -/
abbrev Board := Nat → Nat → String

/-- Assignment `board[r][c] = v`. -/
def setCell (b : Board) (r c : Nat) (v : String) : Board :=
  fun r' c' => if r' = r ∧ c' = c then v else b r' c'

/-- Build a board function from a list-of-rows literal (reads outside the
literal yield "00"). -/
def boardOfRows (rows : List (List String)) : Board :=
  fun r c => (rows.getD r []).getD c "00"

/-- The initial board literal from `__init__` (row index = letter a..h,
column index = digit label minus one). -/
def initBoard : Board := boardOfRows
  [["WR", "WP", "00", "00", "00", "00", "BP", "BR"],
   ["WN", "WP", "00", "00", "00", "00", "BP", "BN"],
   ["WI", "WP", "00", "00", "00", "00", "BP", "BI"],
   ["WQ", "WP", "00", "00", "00", "00", "BP", "BQ"],
   ["WK", "WP", "00", "00", "00", "00", "BP", "BK"],
   ["WI", "WP", "00", "00", "00", "00", "BP", "BI"],
   ["WN", "WP", "00", "00", "00", "00", "BP", "BN"],
   ["WR", "WP", "00", "00", "00", "00", "BP", "BR"]]

/-- The mutable state of a ChessVar object: `_turn`, `_game_state`, `_board`. -/
structure GameSt where
  turn : String
  gameState : String
  board : Board

/-- The state produced by `ChessVar.__init__`. -/
def initState : GameSt := ⟨"WHITE", "UNFINISHED", initBoard⟩

/-- `abs(a - b)` on Python ints, for natural inputs. -/
def absDiff (a b : Nat) : Nat := (a - b) + (b - a)

/-- The membership test `c in "abcdefgh"` combined with `"abcdefgh".index c`:
`some i` when the character is the i-th board letter, `none` otherwise. -/
def letterIdx (c : Char) : Option Nat :=
  if c = 'a' then some 0
  else if c = 'b' then some 1
  else if c = 'c' then some 2
  else if c = 'd' then some 3
  else if c = 'e' then some 4
  else if c = 'f' then some 5
  else if c = 'g' then some 6
  else if c = 'h' then some 7
  else none

/-- `int(c)` for a single character: `some` of its value on a digit, `none`
(a raised ValueError) otherwise. -/
def digitVal (c : Char) : Option Nat :=
  if c.isDigit then some (c.toNat - '0'.toNat) else none

/-- The Python substring test `ch in cell` for a one-character needle:
membership of the character in the cell string.  (Defined over the
underlying character list so that it computes by structural recursion.) -/
def hasChar (s : String) (ch : Char) : Bool := s.data.contains ch

/-- `validate_pawn` (lines 150-195).  The Python falls off the end of the
function (returning the falsy None) when a branch is entered but its inner
test fails; that is modelled by the `decide` of the inner test. -/
def validatePawn (turn : String) (sr sc : Nat) (landing : String) (er ec : Nat) : Bool :=
  if sc = 1 ∧ sr = er ∧ turn = "WHITE" then
    decide ((sc + 1 = ec ∨ sc + 2 = ec) ∧ landing = "00")
  else if sc = 6 ∧ sr = er ∧ turn = "BLACK" then
    decide ((ec + 1 = sc ∨ ec + 2 = sc) ∧ landing = "00")
  else if sr = er ∧ turn = "WHITE" then
    decide (sc + 1 = ec ∧ landing = "00")
  else if sr = er ∧ turn = "BLACK" then
    decide (ec + 1 = sc ∧ landing = "00")
  else if absDiff sr er = 1 then
    decide ((sc + 1 = ec ∧ turn = "WHITE" ∧ landing ≠ "00") ∨
            (ec + 1 = sc ∧ turn = "BLACK" ∧ landing ≠ "00"))
  else false

/-- `validate_rook` (lines 197-222).  `range(start+1, end)` is empty whenever
`end ≤ start + 1`, which `List.range'` with truncated subtraction reproduces. -/
def validateRook (b : Board) (sr sc er ec : Nat) : Bool :=
  if sr = er then
    (List.range' (sc + 1) (ec - (sc + 1))).all (fun i => b sr i == "00")
  else if sc = ec then
    (List.range' (sr + 1) (er - (sr + 1))).all (fun i => b i sc == "00")
  else false

/-- `validate_knight` (lines 224-245). -/
def validateKnight (sr sc er ec : Nat) : Bool :=
  if absDiff sr er = 1 then decide (absDiff sc ec = 2)
  else if absDiff sr er = 2 then decide (absDiff sc ec = 1)
  else false

/-- The diagonal-path scan shared by `validate_bishop` and `validate_queen`:
four mutually exclusive direction branches, each walking `range(1, dist)`. -/
def diagClear (b : Board) (sr sc er ec dist : Nat) : Bool :=
  if sr < er ∧ sc < ec then
    (List.range' 1 (dist - 1)).all (fun i => b (sr + i) (sc + i) == "00")
  else if sr < er ∧ ec < sc then
    (List.range' 1 (dist - 1)).all (fun i => b (sr + i) (sc - i) == "00")
  else if er < sr ∧ sc < ec then
    (List.range' 1 (dist - 1)).all (fun i => b (sr - i) (sc + i) == "00")
  else if er < sr ∧ ec < sc then
    (List.range' 1 (dist - 1)).all (fun i => b (sr - i) (sc - i) == "00")
  else true

/-- `validate_bishop` (lines 247-278). -/
def validateBishop (b : Board) (sr sc er ec : Nat) : Bool :=
  if absDiff sr er = absDiff sc ec then diagClear b sr sc er ec (absDiff sr er)
  else false

/-- `validate_queen` (lines 281-325). -/
def validateQueen (b : Board) (sr sc er ec : Nat) : Bool :=
  if absDiff sr er = absDiff sc ec then diagClear b sr sc er ec (absDiff sr er)
  else if sr = er then
    (List.range' (sc + 1) (ec - (sc + 1))).all (fun i => b sr i == "00")
  else if sc = ec then
    (List.range' (sr + 1) (er - (sr + 1))).all (fun i => b i sc == "00")
  else false

/-- `validate_king` (lines 329-353). -/
def validateKing (sr sc : Nat) (landing : String) (er ec : Nat) : Bool :=
  if absDiff sr er = 1 then
    decide ((sc = ec ∨ absDiff sc ec = 1) ∧ landing = "00")
  else if absDiff sc ec = 1 then
    decide ((sr = er ∨ absDiff sr er = 1) ∧ landing = "00")
  else false

/-- `validate_move` (lines 101-148): turn ownership, friendly fire, and
dispatch on the kind letter contained in the moving piece's cell string. -/
def validateMove (s : GameSt) (movingPiece : String) (sr sc : Nat)
    (landing : String) (er ec : Nat) : Bool :=
  if movingPiece = "00" then false
  else if sr = er ∧ sc = ec then false
  else if s.turn = "WHITE" ∧ hasChar movingPiece 'B' then false
  else if s.turn = "WHITE" ∧ hasChar landing 'W' then false
  else if s.turn = "BLACK" ∧ hasChar movingPiece 'W' then false
  else if s.turn = "BLACK" ∧ hasChar landing 'B' then false
  else if hasChar movingPiece 'P' then validatePawn s.turn sr sc landing er ec
  else if hasChar movingPiece 'R' then validateRook s.board sr sc er ec
  else if hasChar movingPiece 'N' then validateKnight sr sc er ec
  else if hasChar movingPiece 'I' then validateBishop s.board sr sc er ec
  else if hasChar movingPiece 'Q' then validateQueen s.board sr sc er ec
  else if hasChar movingPiece 'K' then validateKing sr sc landing er ec
  else false

/-- One guarded blast write: `if guard and "P" not in board[x][y]:
board[x][y] = '00'`, with the bounds guard abstracted out by the caller. -/
def clearIfNotPawn (b : Board) (x y : Nat) : Board :=
  if hasChar (b x y) 'P' = true then b else setCell b x y "00"

/-- One bounds-guarded blast write of `atomic_landing`: run `clearIfNotPawn`
on the target when the bounds guard holds, else leave the board alone. -/
def blastStep (g : Prop) [Decidable g] (x y : Nat) (b : Board) : Board :=
  if g then clearIfNotPawn b x y else b

/-- The nine-square clearing sequence of `atomic_landing` (lines 371-389 and
identically 394-412): center unconditionally, then the eight bounds-checked
neighbors in source order (innermost application first), skipping pawns. -/
def explode (b : Board) (er ec : Nat) : Board :=
  blastStep (ec < 7 ∧ er < 7) (er + 1) (ec + 1)
    (blastStep (0 < ec ∧ er < 7) (er + 1) (ec - 1)
      (blastStep (er < 7) (er + 1) ec
        (blastStep (ec < 7 ∧ 0 < er) (er - 1) (ec + 1)
          (blastStep (0 < ec ∧ 0 < er) (er - 1) (ec - 1)
            (blastStep (0 < er) (er - 1) ec
              (blastStep (ec < 7) er (ec + 1)
                (blastStep (0 < ec) er (ec - 1)
                  (setCell b er ec "00"))))))))

/-- The scan `"BK" in row` / `"WK" in row` over the eight rows of a board. -/
def kingPresent (b : Board) (code : String) : Bool :=
  (List.range 8).any (fun r => (List.range 8).any (fun c => b r c == code))

/-- `check_king` (lines 416-445): returns the new `_game_state` together with
the boolean result.  The game state is written only in the exactly-one-king
branches. -/
def checkKing (b : Board) (gs : String) : String × Bool :=
  let bp := kingPresent b "BK"
  let wp := kingPresent b "WK"
  if ¬ wp = true ∧ ¬ bp = true then (gs, false)
  else if bp = true ∧ wp = true then (gs, true)
  else if bp = true then ("BLACK_WON", true)
  else ("WHITE_WON", true)

/-- The trial-phase evaluation of `atomic_landing` (lines 370-390): the
explosion applied to `test_board` followed by `check_king` on it.  Because
`test_board = self._board` aliases the live board, the exploded board below
IS the new live board on the rejection path. -/
def trialEval (s : GameSt) (er ec : Nat) : String × Bool :=
  checkKing (explode s.board er ec) s.gameState

/-- `atomic_landing` (lines 355-414).  `test_board = self._board` is a
reference, not a copy: the trial writes land on the live board, so the
rejection branch returns the exploded board.  On success the clearing
sequence runs a second time over the already-cleared live board and
`check_king` runs again. -/
def atomicLanding (s : GameSt) (er ec : Nat) : GameSt × Bool :=
  let testBoard := explode s.board er ec
  let t := trialEval s er ec
  if t.2 = false then
    ({ s with board := testBoard, gameState := t.1 }, false)
  else
    let b2 := explode testBoard er ec
    let t2 := checkKing b2 t.1
    ({ s with board := b2, gameState := t2.1 }, true)

/-- The turn flip at lines 92-95. -/
def flipTurn (t : String) : String :=
  if t = "WHITE" then "BLACK" else "WHITE"

/-- `make_move` (lines 42-99).  `none` models a raised exception
(`int()` on a non-digit second character); `some (s, v)` models a normal
return of `v` with post-call object state `s`. -/
def makeMove (s : GameSt) (sp ep : Char × Char) : Option (GameSt × Bool) :=
  if s.gameState ≠ "UNFINISHED" then some (s, false)
  else
    match letterIdx sp.1, letterIdx ep.1 with
    | none, _ => some (s, false)
    | some _, none => some (s, false)
    | some sr, some er =>
      match digitVal sp.2 with
      | none => none
      | some sd =>
        if sd = 0 then some (s, false)
        else if 7 < sr ∨ 7 < sd - 1 then some (s, false)
        else
          let sc := sd - 1
          let movingPiece := s.board sr sc
          match digitVal ep.2 with
          | none => none
          | some ed =>
            if ed = 0 then some (s, false)
            else if 7 < er ∨ 7 < ed - 1 then some (s, false)
            else
              let ec := ed - 1
              let landing := s.board er ec
              if validateMove s movingPiece sr sc landing er ec then
                if landing ≠ "00" then
                  let a := atomicLanding s er ec
                  if a.2 = false then some (a.1, false)
                  else
                    let s2 := { a.1 with
                      board := setCell a.1.board sr sc "00" }
                    some ({ s2 with turn := flipTurn s2.turn }, true)
                else
                  let s1 := { s with
                    board := setCell (setCell s.board er ec movingPiece) sr sc "00" }
                  some ({ s1 with turn := flipTurn s1.turn }, true)
              else some (s, false)

/-! ### Property-side definitions and concrete test states -/

/-- The twelve piece codes plus the empty marker: the cell alphabet of the
initial board. -/
def alphabet : List String :=
  ["00", "WP", "WR", "WN", "WI", "WQ", "WK", "BP", "BR", "BN", "BI", "BQ", "BK"]

/-- Every one of the 64 cells of the playing area holds a string of the cell
alphabet. -/
def goodBoard (b : Board) : Prop :=
  ∀ r c : Fin 8, b r.val c.val ∈ alphabet

instance goodBoardDecidable (b : Board) : Decidable (goodBoard b) :=
  inferInstanceAs (Decidable (∀ r c : Fin 8, b r.val c.val ∈ alphabet))

/-- A state in which a queen capture at b1 would blow up both kings:
WK on a1 = (0,0), BR on b1 = (1,0), BK on c1 = (2,0), WQ on b5 = (1,4). -/
def c1State : GameSt := ⟨"WHITE", "UNFINISHED", boardOfRows
  [["WK", "00", "00", "00", "00", "00", "00", "00"],
   ["BR", "00", "00", "00", "WQ", "00", "00", "00"],
   ["BK", "00", "00", "00", "00", "00", "00", "00"]]⟩

/-- A state with a white rook on a6 = (0,5), a blocking black pawn on
a4 = (0,3), and the kings on h5 = (7,4) and h7 = (7,6): the rook's leftward
move a6 -> a2 passes strictly over the pawn. -/
def c3State : GameSt := ⟨"WHITE", "UNFINISHED", boardOfRows
  [["00", "00", "00", "BP", "00", "WR", "00", "00"],
   [], [], [], [], [], [],
   ["00", "00", "00", "00", "WK", "00", "BK", "00"]]⟩

/-- A state where the white pawn on a4 = (0,3) can capture the black pawn on
b5 = (1,4); the kings on h1 = (7,0) and h8 = (7,7) are far from the blast. -/
def c5State : GameSt := ⟨"WHITE", "UNFINISHED", boardOfRows
  [["00", "00", "00", "WP", "00", "00", "00", "00"],
   ["00", "00", "00", "00", "BP", "00", "00", "00"],
   [], [], [], [], [],
   ["WK", "00", "00", "00", "00", "00", "00", "BK"]]⟩

/-- A state where capturing the black rook on a2 = (0,1) blows up only the
black king on a1 = (0,0): BK a1, BR a2, WR e2 = (4,1), WK h8 = (7,7). -/
def oneKingSt : GameSt := ⟨"WHITE", "UNFINISHED", boardOfRows
  [["BK", "BR", "00", "00", "00", "00", "00", "00"],
   [], [], [],
   ["00", "WR", "00", "00", "00", "00", "00", "00"],
   [], [],
   ["00", "00", "00", "00", "00", "00", "00", "WK"]]⟩

/-- A finished game: the initial board with `_game_state` already set to
WHITE_WON. -/
def wonState : GameSt := ⟨"WHITE", "WHITE_WON", initBoard⟩

/-- A state with a white pawn stranded on the last column a8 = (0,7) and a
black pawn stranded on the first column b1 = (1,0); kings on h1 and h8. -/
def edgePawnState : GameSt := ⟨"WHITE", "UNFINISHED", boardOfRows
  [["00", "00", "00", "00", "00", "00", "00", "WP"],
   ["BP", "00", "00", "00", "00", "00", "00", "00"],
   [], [], [], [], [],
   ["WK", "00", "00", "00", "00", "00", "00", "BK"]]⟩

/-- A state exercising the pawn's two-square jump over an occupied square:
white pawn on c2 = (2,1), a black knight parked on the passed-over square
c3 = (2,2), empty destination c4 = (2,3); kings far away on f1 and f8. -/
def jumpState : GameSt := ⟨"WHITE", "UNFINISHED", boardOfRows
  [[], [],
   ["00", "WP", "BN", "00", "00", "00", "00", "00"],
   [], [],
   ["WK", "00", "00", "00", "00", "00", "00", "BK"]]⟩

/-! ### Reading and framing lemmas for the board operations -/

lemma setCell_ne {b : Board} {x y : Nat} {v : String} {r c : Nat}
    (h : ¬(r = x ∧ c = y)) : setCell b x y v r c = b r c := by
  simp only [setCell]
  exact if_neg h

lemma setCell_eq {b : Board} {x y : Nat} {v : String} :
    setCell b x y v x y = v := by
  simp only [setCell, and_self, if_true]

lemma clearIfNotPawn_ne {b : Board} {x y r c : Nat}
    (h : ¬(r = x ∧ c = y)) : clearIfNotPawn b x y r c = b r c := by
  unfold clearIfNotPawn
  split_ifs with hp
  · rfl
  · exact setCell_ne h

lemma clearIfNotPawn_pawn {b : Board} {x y r c : Nat}
    (hp : hasChar (b r c) 'P' = true) : clearIfNotPawn b x y r c = b r c := by
  unfold clearIfNotPawn
  split_ifs with h
  · rfl
  · refine setCell_ne ?_
    rintro ⟨rfl, rfl⟩
    exact h hp

lemma blastStep_keepVal {g : Prop} [Decidable g] {x y r c : Nat} {b' : Board}
    {v : String} (hmiss : g → ¬(r = x ∧ c = y)) (hval : b' r c = v) :
    blastStep g x y b' r c = v := by
  unfold blastStep
  split_ifs with hg
  · rw [clearIfNotPawn_ne (hmiss hg)]
    exact hval
  · exact hval

lemma blastStep_keepPawn {g : Prop} [Decidable g] {x y r c : Nat} {b' b : Board}
    (hval : b' r c = b r c) (hp : hasChar (b r c) 'P' = true) :
    blastStep g x y b' r c = b r c := by
  unfold blastStep
  split_ifs with hg
  · rw [clearIfNotPawn_pawn (by rw [hval]; exact hp)]
    exact hval
  · exact hval

lemma blastStep_hitVal {g : Prop} [Decidable g] {x y r c : Nat} {b' b : Board}
    (hg : g) (hx : r = x) (hy : c = y)
    (hval : b' r c = b r c) (hnp : hasChar (b r c) 'P' = false) :
    blastStep g x y b' r c = "00" := by
  subst hx
  subst hy
  unfold blastStep clearIfNotPawn
  rw [if_pos hg]
  rw [hval, hnp]
  simp only [Bool.false_eq_true, if_false]
  exact setCell_eq

/-- Off-center pawns are untouched by the clearing sequence (in fact every
off-center square holding a pawn code is untouched, adjacent or not). -/
lemma explode_keepPawn {b : Board} {er ec r c : Nat}
    (hne : ¬(r = er ∧ c = ec)) (hp : hasChar (b r c) 'P' = true) :
    explode b er ec r c = b r c := by
  unfold explode
  iterate 8 refine blastStep_keepPawn ?_ hp
  exact setCell_ne hne

/-- The landing square itself is always cleared, pawn or not. -/
lemma explode_center {b : Board} {er ec : Nat} :
    explode b er ec er ec = "00" := by
  unfold explode
  iterate 8 refine blastStep_keepVal (fun hg => by omega) ?_
  exact setCell_eq

/-- Any square not in the 3x3 neighborhood of the landing square is
untouched by the clearing sequence. -/
lemma explode_far {b : Board} {er ec r c : Nat}
    (hfar : 1 < absDiff er r ∨ 1 < absDiff ec c) :
    explode b er ec r c = b r c := by
  simp only [absDiff] at hfar
  unfold explode
  iterate 8 refine blastStep_keepVal (fun hg => by omega) ?_
  exact setCell_ne (by omega)

/-- Any on-board square adjacent to the landing square whose occupant is not
a pawn is cleared by the clearing sequence. -/
lemma explode_clears_adjacent {b : Board} {er ec r c : Nat}
    (hr : r ≤ 7) (hc : c ≤ 7)
    (h1 : absDiff er r ≤ 1) (h2 : absDiff ec c ≤ 1) (h3 : ¬(r = er ∧ c = ec))
    (hnp : hasChar (b r c) 'P' = false) :
    explode b er ec r c = "00" := by
  simp only [absDiff] at h1 h2
  have hr9 : r = er ∨ r + 1 = er ∨ r = er + 1 := by omega
  have hc9 : c = ec ∨ c + 1 = ec ∨ c = ec + 1 := by omega
  unfold explode
  rcases hr9 with hr' | hr' | hr' <;> rcases hc9 with hc' | hc' | hc'
  · exact absurd ⟨hr', hc'⟩ h3
  · iterate 7 refine blastStep_keepVal (fun hg => by omega) ?_
    refine blastStep_hitVal (by omega) (by omega) (by omega) ?_ hnp
    exact setCell_ne (by omega)
  · iterate 6 refine blastStep_keepVal (fun hg => by omega) ?_
    refine blastStep_hitVal (by omega) (by omega) (by omega) ?_ hnp
    refine blastStep_keepVal (fun hg => by omega) ?_
    exact setCell_ne (by omega)
  · iterate 5 refine blastStep_keepVal (fun hg => by omega) ?_
    refine blastStep_hitVal (by omega) (by omega) (by omega) ?_ hnp
    iterate 2 refine blastStep_keepVal (fun hg => by omega) ?_
    exact setCell_ne (by omega)
  · iterate 4 refine blastStep_keepVal (fun hg => by omega) ?_
    refine blastStep_hitVal (by omega) (by omega) (by omega) ?_ hnp
    iterate 3 refine blastStep_keepVal (fun hg => by omega) ?_
    exact setCell_ne (by omega)
  · iterate 3 refine blastStep_keepVal (fun hg => by omega) ?_
    refine blastStep_hitVal (by omega) (by omega) (by omega) ?_ hnp
    iterate 4 refine blastStep_keepVal (fun hg => by omega) ?_
    exact setCell_ne (by omega)
  · iterate 2 refine blastStep_keepVal (fun hg => by omega) ?_
    refine blastStep_hitVal (by omega) (by omega) (by omega) ?_ hnp
    iterate 5 refine blastStep_keepVal (fun hg => by omega) ?_
    exact setCell_ne (by omega)
  · refine blastStep_keepVal (fun hg => by omega) ?_
    refine blastStep_hitVal (by omega) (by omega) (by omega) ?_ hnp
    iterate 6 refine blastStep_keepVal (fun hg => by omega) ?_
    exact setCell_ne (by omega)
  · refine blastStep_hitVal (by omega) (by omega) (by omega) ?_ hnp
    iterate 7 refine blastStep_keepVal (fun hg => by omega) ?_
    exact setCell_ne (by omega)

/-! ### Alphabet preservation lemmas -/

lemma goodBoard_setCell {b : Board} {x y : Nat} {v : String}
    (hb : goodBoard b) (hv : v ∈ alphabet) : goodBoard (setCell b x y v) := by
  intro r c
  simp only [setCell]
  split_ifs
  · exact hv
  · exact hb r c

lemma goodBoard_clearIfNotPawn {b : Board} {x y : Nat}
    (hb : goodBoard b) : goodBoard (clearIfNotPawn b x y) := by
  unfold clearIfNotPawn
  split_ifs
  · exact hb
  · exact goodBoard_setCell hb (by simp [alphabet])

lemma goodBoard_blastStep {g : Prop} [Decidable g] {x y : Nat} {b : Board}
    (hb : goodBoard b) : goodBoard (blastStep g x y b) := by
  unfold blastStep
  split_ifs
  · exact goodBoard_clearIfNotPawn hb
  · exact hb

lemma goodBoard_explode {b : Board} {er ec : Nat}
    (hb : goodBoard b) : goodBoard (explode b er ec) := by
  unfold explode
  iterate 8 apply goodBoard_blastStep
  exact goodBoard_setCell hb (by simp [alphabet])

/-- `check_king` leaves the game state unchanged whenever it returns False
(the zero-king branch returns before any write). -/
lemma checkKing_false {b : Board} {gs : String}
    (h : (checkKing b gs).2 = false) : (checkKing b gs).1 = gs := by
  simp only [checkKing] at h ⊢
  split_ifs at h ⊢
  simp_all

/-- The board of the state returned by `atomic_landing` keeps the cell
alphabet. -/
lemma goodBoard_atomicLanding {s : GameSt} {er ec : Nat}
    (hb : goodBoard s.board) : goodBoard (atomicLanding s er ec).1.board := by
  simp only [atomicLanding]
  split_ifs
  · exact goodBoard_explode hb
  · exact goodBoard_explode (goodBoard_explode hb)

/-! ### Lemmas about parsing and pawn legality at the far edge -/

lemma letterIdx_le7 {ch : Char} {r : Nat} (h : letterIdx ch = some r) : r ≤ 7 := by
  unfold letterIdx at h
  split_ifs at h <;> injection h with h2 <;> omega

/-- A pawn on the last column (white's far edge) has no legal pawn move
unless it is black's turn (in which case `validate_move` already rejected
the white piece before dispatch). -/
lemma validatePawn_col7 (turn : String) (sr : Nat) (landing : String)
    (er ec : Nat) (hec : ec ≤ 7) (ht : turn ≠ "BLACK") :
    validatePawn turn sr 7 landing er ec = false := by
  unfold validatePawn
  rw [if_neg (by rintro ⟨h, -, -⟩; omega)]
  rw [if_neg (by rintro ⟨h, -, -⟩; omega)]
  by_cases h3 : sr = er ∧ turn = "WHITE"
  · rw [if_pos h3]
    simp only [decide_eq_false_iff_not]
    rintro ⟨h, -⟩
    omega
  · rw [if_neg h3]
    rw [if_neg (by rintro ⟨-, h⟩; exact ht h)]
    by_cases h5 : absDiff sr er = 1
    · rw [if_pos h5]
      simp only [decide_eq_false_iff_not]
      rintro (⟨h, -, -⟩ | ⟨-, h, -⟩)
      · omega
      · exact ht h
    · rw [if_neg h5]

/-- A pawn on the first column (black's far edge) has no legal pawn move
unless it is white's turn. -/
lemma validatePawn_col0 (turn : String) (sr : Nat) (landing : String)
    (er ec : Nat) (ht : turn ≠ "WHITE") :
    validatePawn turn sr 0 landing er ec = false := by
  unfold validatePawn
  rw [if_neg (by rintro ⟨h, -, -⟩; omega)]
  rw [if_neg (by rintro ⟨h, -, -⟩; omega)]
  rw [if_neg (by rintro ⟨-, h⟩; exact ht h)]
  by_cases h4 : sr = er ∧ turn = "BLACK"
  · rw [if_pos h4]
    simp only [decide_eq_false_iff_not]
    rintro ⟨h, -⟩
    omega
  · rw [if_neg h4]
    by_cases h5 : absDiff sr er = 1
    · rw [if_pos h5]
      simp only [decide_eq_false_iff_not]
      rintro (⟨-, h, -⟩ | ⟨h, -, -⟩)
      · exact ht h
      · omega
    · rw [if_neg h5]

/-- `validate_move` rejects every move of a white pawn standing on the last
column. -/
lemma validateMove_wp7 (s : GameSt) (sr : Nat) (landing : String)
    (er ec : Nat) (hec : ec ≤ 7) :
    validateMove s "WP" sr 7 landing er ec = false := by
  unfold validateMove
  rw [if_neg (by decide)]
  by_cases h2 : sr = er ∧ 7 = ec
  · rw [if_pos h2]
  · rw [if_neg h2]
    rw [if_neg (by rintro ⟨-, h⟩; exact absurd h (by decide))]
    by_cases h4 : s.turn = "WHITE" ∧ hasChar landing 'W' = true
    · rw [if_pos h4]
    · rw [if_neg h4]
      by_cases h5 : s.turn = "BLACK"
      · rw [if_pos ⟨h5, by decide⟩]
      · rw [if_neg (by rintro ⟨h, -⟩; exact h5 h)]
        rw [if_neg (by rintro ⟨h, -⟩; exact h5 h)]
        rw [if_pos (by decide)]
        exact validatePawn_col7 s.turn sr landing er ec hec h5

/-- `validate_move` rejects every move of a black pawn standing on the first
column. -/
lemma validateMove_bp0 (s : GameSt) (sr : Nat) (landing : String)
    (er ec : Nat) :
    validateMove s "BP" sr 0 landing er ec = false := by
  unfold validateMove
  rw [if_neg (by decide)]
  by_cases h2 : sr = er ∧ 0 = ec
  · rw [if_pos h2]
  · rw [if_neg h2]
    by_cases h3 : s.turn = "WHITE"
    · rw [if_pos ⟨h3, by decide⟩]
    · rw [if_neg (by rintro ⟨h, -⟩; exact h3 h)]
      rw [if_neg (by rintro ⟨h, -⟩; exact h3 h)]
      rw [if_neg (by rintro ⟨-, h⟩; exact absurd h (by decide))]
      by_cases h6 : s.turn = "BLACK" ∧ hasChar landing 'B' = true
      · rw [if_pos h6]
      · rw [if_neg h6]
        rw [if_pos (by decide)]
        exact validatePawn_col0 s.turn sr landing er ec h3

/-! ### Claim theorems -/

/-- Claim C1: rejecting a double-king-kill capture is claimed to leave the
live board bit-for-bit identical to its pre-move state.  Evaluating the code
at the failing input shows the opposite: the queen capture b5xb1 in
`c1State` would destroy both kings, `make_move` duly returns False, yet the
live board has already lost the white king from a1 and the black king from
c1, because `test_board = self._board` aliases instead of copying.  The
moving queen does remain on its origin square b5. -/
theorem c1_reject_mutates_board :
    (makeMove c1State ('b', '5') ('b', '1')).map
        (fun p => (p.2, p.1.board 0 0, p.1.board 2 0, p.1.board 1 4, p.1.gameState)) =
      some (false, "00", "00", "WQ", "UNFINISHED") ∧
    c1State.board 0 0 = "WK" ∧ c1State.board 2 0 = "BK" := by
  refine ⟨by decide, by decide, by decide⟩

/-- Claim C2 (counterexample): the evaluation run on the trial board is
claimed never to set the live GameState, yet in `oneKingSt` (where the
capture at a2 blows up only the black king) the trial-phase `check_king`
call already sets it to WHITE_WON before the commit decision. -/
theorem c2_trial_writes_game_state :
    (trialEval oneKingSt 0 1).1 = "WHITE_WON" ∧
    oneKingSt.gameState = "UNFINISHED" := by
  refine ⟨by decide, by decide⟩

/-- Claim C2 (amended): only the zero-king rejection branch is guaranteed
not to touch GameState: whenever the trial-board evaluation returns False,
the game state it yields, and the game state of the state returned by
`atomic_landing`, both equal the pre-move game state.  (When the trial
explosion leaves exactly one king, the trial-phase evaluation itself
already sets GameState, as the counterexample shows.) -/
theorem c2_reject_preserves_game_state (s : GameSt) (er ec : Nat)
    (h : (trialEval s er ec).2 = false) :
    (trialEval s er ec).1 = s.gameState ∧
    (atomicLanding s er ec).1.gameState = s.gameState := by
  have h1 : (trialEval s er ec).1 = s.gameState := by
    unfold trialEval at h ⊢
    exact checkKing_false h
  refine ⟨h1, ?_⟩
  simp only [atomicLanding, h, if_pos]
  exact h1

/-- Witness for C2 (amended), at the double-king-kill state `c1State`
(capture landing on b1 = (1,0)). -/
theorem c2_reject_preserves_game_state_witness :
    (trialEval c1State 1 0).2 = false ∧
    ((trialEval c1State 1 0).1 = c1State.gameState ∧
      (atomicLanding c1State 1 0).1.gameState = c1State.gameState) :=
  ⟨by decide, c2_reject_preserves_game_state c1State 1 0 (by decide)⟩

/-- Claim C3: a blocked straight move is claimed always to fail regardless
of travel direction.  Evaluating the code at the failing input shows the
leftward rook move a6 -> a2 in `c3State`, whose path strictly contains the
black pawn on a4, is judged legal and committed: `range(start+1, end)` is
empty when the rook travels toward a lower column, so the path scan is
skipped. -/
theorem c3_blocked_leftward_rook_move_succeeds :
    (makeMove c3State ('a', '6') ('a', '2')).map
        (fun p => (p.2, p.1.board 0 1, p.1.board 0 5, p.1.board 0 3)) =
      some (true, "WR", "00", "BP") ∧
    c3State.board 0 3 = "BP" := by
  refine ⟨by decide, by decide⟩

/-- Claim C6: a king move is judged legal iff both absolute deltas are at
most 1, the move is not the null move, and the destination square is empty;
in particular the king can never land on an occupied square and so can
never initiate a capture. -/
theorem c6_king_legality (sr sc : Nat) (landing : String) (er ec : Nat) :
    validateKing sr sc landing er ec = true ↔
      (absDiff sr er ≤ 1 ∧ absDiff sc ec ≤ 1 ∧
        ¬(sr = er ∧ sc = ec) ∧ landing = "00") := by
  unfold validateKing absDiff
  split_ifs with h1 h2
  · simp only [decide_eq_true_eq]
    constructor
    · rintro ⟨hd, hl⟩
      exact ⟨by omega, by rcases hd with h | h <;> omega, by omega, hl⟩
    · rintro ⟨ha, hb, hc, hl⟩
      exact ⟨by omega, hl⟩
  · simp only [decide_eq_true_eq]
    constructor
    · rintro ⟨hd, hl⟩
      exact ⟨by omega, by omega, by omega, hl⟩
    · rintro ⟨ha, hb, hc, hl⟩
      exact ⟨by omega, hl⟩
  · simp only [Bool.false_eq_true, false_iff]
    rintro ⟨ha, hb, hc, hl⟩
    omega

/-- Claim C7: once the game state holds a Won value, every `make_move` call
returns False and leaves the whole object state (board, turn, game state)
unchanged; in particular the game state never leaves the Won value. -/
theorem c7_terminal_states_fail_closed (s : GameSt) (sp ep : Char × Char)
    (h : s.gameState = "WHITE_WON" ∨ s.gameState = "BLACK_WON") :
    makeMove s sp ep = some (s, false) := by
  have hne : s.gameState ≠ "UNFINISHED" := by
    rcases h with h | h <;> rw [h] <;> decide
  unfold makeMove
  rw [if_pos hne]

/-- Witness for C7: a finished game (WHITE_WON over the initial board)
rejects the opening pawn move without mutating anything. -/
theorem c7_terminal_states_fail_closed_witness :
    wonState.gameState = "WHITE_WON" ∧
    makeMove wonState ('a', '2') ('a', '4') = some (wonState, false) :=
  ⟨rfl, c7_terminal_states_fail_closed wonState ('a', '2') ('a', '4') (Or.inl rfl)⟩

/-- Claim C4 (counterexample): a non-digit second character in a position
token makes `make_move` raise a ValueError from `int()` (modelled as `none`)
instead of returning the boolean False. -/
theorem c4_nondigit_token_raises :
    makeMove initState ('a', 'x') ('b', '3') = none := by
  rfl

set_option maxHeartbeats 1600000 in
/-- Claim C4 (amended): wrong-letter tokens and out-of-range digit tokens
are rejected through the single boolean channel with the state unchanged,
and whenever both second characters are digits no exception can occur; but
a non-digit second character escapes through a distinct error channel (a
raised ValueError), as the counterexample shows. -/
theorem c4_single_failure_channel_amended (s : GameSt) (p q : Char × Char) :
    (p.2.isDigit = true → q.2.isDigit = true → (makeMove s p q).isSome = true) ∧
    ((letterIdx p.1 = none ∨ letterIdx q.1 = none) → makeMove s p q = some (s, false)) ∧
    (∀ r d, letterIdx p.1 = some r → letterIdx q.1 ≠ none → digitVal p.2 = some d →
        (d = 0 ∨ 9 ≤ d) → makeMove s p q = some (s, false)) ∧
    (∀ r er d e, letterIdx p.1 = some r → letterIdx q.1 = some er →
        digitVal p.2 = some d → 1 ≤ d → d ≤ 8 → digitVal q.2 = some e →
        (e = 0 ∨ 9 ≤ e) → makeMove s p q = some (s, false)) := by
  refine ⟨?_, ?_, ?_, ?_⟩
  · intro hp hq
    have hD : digitVal p.2 = some (p.2.toNat - '0'.toNat) := by
      unfold digitVal
      rw [if_pos hp]
    have hE : digitVal q.2 = some (q.2.toNat - '0'.toNat) := by
      unfold digitVal
      rw [if_pos hq]
    rcases hA : letterIdx p.1 with _ | r
    · simp only [makeMove, hA]
      split_ifs <;> rfl
    · rcases hB : letterIdx q.1 with _ | er
      · simp only [makeMove, hA, hB]
        split_ifs <;> rfl
      · simp only [makeMove, hA, hB, hD, hE]
        split_ifs <;> rfl
  · intro h
    rcases h with h | h
    · simp only [makeMove, h]
      split_ifs <;> rfl
    · rcases hA : letterIdx p.1 with _ | r <;> simp only [makeMove, hA, h] <;>
        split_ifs <;> rfl
  · intro r d hA hB hD hd
    rcases hB' : letterIdx q.1 with _ | er
    · exact absurd hB' hB
    · simp only [makeMove, hA, hB', hD]
      split_ifs <;> first | rfl | (exfalso; omega)
  · intro r er d e hA hB hD h1 h2 hE he
    have hr7 := letterIdx_le7 hA
    simp only [makeMove, hA, hB, hD, hE]
    split_ifs <;> first | rfl | (exfalso; omega)

/-- Witness for C4 (amended): the four boolean-channel conjuncts at
concrete inputs over the initial state. -/
theorem c4_single_failure_channel_amended_witness :
    (makeMove initState ('a', '2') ('a', '4')).isSome = true ∧
    makeMove initState ('z', '1') ('a', '2') = some (initState, false) ∧
    makeMove initState ('a', '9') ('a', '2') = some (initState, false) ∧
    makeMove initState ('a', '2') ('a', '0') = some (initState, false) :=
  ⟨(c4_single_failure_channel_amended initState ('a', '2') ('a', '4')).1
      (by decide) (by decide),
   (c4_single_failure_channel_amended initState ('z', '1') ('a', '2')).2.1
      (Or.inl (by decide)),
   (c4_single_failure_channel_amended initState ('a', '9') ('a', '2')).2.2.1
      0 9 (by decide) (by decide) (by decide) (Or.inr (by decide)),
   (c4_single_failure_channel_amended initState ('a', '2') ('a', '0')).2.2.2
      0 0 2 0 (by decide) (by decide) (by decide) (by decide) (by decide)
      (by decide) (Or.inl rfl)⟩

/-- Claim C5 (counterexample): pawns within the 3x3 neighborhood of the
landing square are claimed to remain after any committed capture, yet after
the committed pawn capture a4xb5 in `c5State` both the capturing white pawn
(on the diagonally adjacent origin a4 = (0,3), cleared by the
origin-clearing step of make_move) and the captured black pawn (on the
landing square b5 = (1,4), cleared unconditionally) are gone. -/
theorem c5_blast_zone_pawns_removed :
    (makeMove c5State ('a', '4') ('b', '5')).map
        (fun p => (p.2, p.1.board 0 3, p.1.board 1 4)) = some (true, "00", "00") ∧
    c5State.board 0 3 = "WP" ∧ c5State.board 1 4 = "BP" := by
  refine ⟨by decide, by decide, by decide⟩

/-- Claim C5 (amended): the clearing sequence of the Atomic Capture
Resolver (i) leaves every off-center square holding a pawn untouched,
(ii) clears the landing square unconditionally (even a captured pawn is
removed), and (iii) clears every on-board square adjacent to the landing
square whose occupant is not a pawn.  The capturing piece is removed
separately by make_move clearing the origin square, which also removes a
capturing pawn adjacent to the blast, as the counterexample shows. -/
theorem c5_explosion_immunity_amended :
    (∀ (b : Board) (er ec r c : Nat), ¬(r = er ∧ c = ec) →
        hasChar (b r c) 'P' = true → explode b er ec r c = b r c) ∧
    (∀ (b : Board) (er ec : Nat), explode b er ec er ec = "00") ∧
    (∀ (b : Board) (er ec r c : Nat), r ≤ 7 → c ≤ 7 →
        absDiff er r ≤ 1 → absDiff ec c ≤ 1 → ¬(r = er ∧ c = ec) →
        hasChar (b r c) 'P' = false → explode b er ec r c = "00") := by
  refine ⟨?_, ?_, ?_⟩
  · intro b er ec r c hne hp
    exact explode_keepPawn hne hp
  · intro b er ec
    exact explode_center
  · intro b er ec r c hr hc h1 h2 h3 hnp
    exact explode_clears_adjacent hr hc h1 h2 h3 hnp

/-- Witness for C5 (amended) with blast center b5 = (1,4) on `c5State`: the
adjacent pawn on a4 = (0,3) survives the clearing sequence, the landing
square is cleared, and the empty adjacent square c5 = (2,4) is cleared. -/
theorem c5_explosion_immunity_amended_witness :
    (¬((0 : Nat) = 1 ∧ (3 : Nat) = 4) ∧ hasChar (c5State.board 0 3) 'P' = true ∧
      explode c5State.board 1 4 0 3 = c5State.board 0 3) ∧
    explode c5State.board 1 4 1 4 = "00" ∧
    explode c5State.board 1 4 2 4 = "00" :=
  ⟨⟨by decide, by decide,
    c5_explosion_immunity_amended.1 c5State.board 1 4 0 3 (by decide) (by decide)⟩,
   c5_explosion_immunity_amended.2.1 c5State.board 1 4,
   c5_explosion_immunity_amended.2.2 c5State.board 1 4 2 4 (by decide) (by decide)
     (by decide) (by decide) (by decide) (by decide)⟩

/-- `make_move` on a game in progress with both tokens parsing to in-range
squares, an empty destination, and an approving `validate_move`, commits a
plain move and reports success. -/
lemma makeMove_plain_true (s : GameSt) (c1 c2 d1 d2 : Char) (r er sd ed : Nat)
    (hgs : s.gameState = "UNFINISHED")
    (hA : letterIdx c1 = some r) (hB : letterIdx c2 = some er)
    (hd1 : digitVal d1 = some sd) (hd2 : digitVal d2 = some ed)
    (h1 : 1 ≤ sd) (h2 : sd ≤ 8) (h3 : 1 ≤ ed) (h4 : ed ≤ 8)
    (hl : s.board er (ed - 1) = "00")
    (hv : validateMove s (s.board r (sd - 1)) r (sd - 1) "00" er (ed - 1) = true) :
    (makeMove s (c1, d1) (c2, d2)).map Prod.snd = some true := by
  have hr7 := letterIdx_le7 hA
  have her7 := letterIdx_le7 hB
  have n1 : ¬(sd = 0) := by omega
  have n2 : ¬(7 < r ∨ 7 < sd - 1) := by omega
  have n3 : ¬(ed = 0) := by omega
  have n4 : ¬(7 < er ∨ 7 < ed - 1) := by omega
  simp only [makeMove, hA, hB, hd1, hd2]
  rw [if_neg (by simp [hgs])]
  rw [if_neg n1, if_neg n2, if_neg n3, if_neg n4]
  rw [hl, hv]
  rw [if_pos rfl]
  rw [if_neg (by simp)]
  rfl

/-- `validate_move` approves a white-turn move of a white pawn whenever the
pawn-specific predicate does (empty destination case). -/
lemma validateMove_pawnW {s : GameSt} (ht : s.turn = "WHITE") {r sc ec : Nat}
    (hne : sc ≠ ec)
    (hpv : validatePawn "WHITE" r sc "00" r ec = true) :
    validateMove s "WP" r sc "00" r ec = true := by
  unfold validateMove
  rw [ht]
  rw [if_neg (by decide)]
  rw [if_neg (by rintro ⟨-, h⟩; exact hne h)]
  rw [if_neg (by rintro ⟨-, h⟩; exact absurd h (by decide))]
  rw [if_neg (by rintro ⟨-, h⟩; exact absurd h (by decide))]
  rw [if_neg (by rintro ⟨h, -⟩; exact absurd h (by decide))]
  rw [if_neg (by rintro ⟨h, -⟩; exact absurd h (by decide))]
  rw [if_pos (by decide)]
  exact hpv

/-- `validate_move` approves a black-turn move of a black pawn whenever the
pawn-specific predicate does (empty destination case). -/
lemma validateMove_pawnB {s : GameSt} (ht : s.turn = "BLACK") {r sc ec : Nat}
    (hne : sc ≠ ec)
    (hpv : validatePawn "BLACK" r sc "00" r ec = true) :
    validateMove s "BP" r sc "00" r ec = true := by
  unfold validateMove
  rw [ht]
  rw [if_neg (by decide)]
  rw [if_neg (by rintro ⟨-, h⟩; exact hne h)]
  rw [if_neg (by rintro ⟨h, -⟩; exact absurd h (by decide))]
  rw [if_neg (by rintro ⟨h, -⟩; exact absurd h (by decide))]
  rw [if_neg (by rintro ⟨-, h⟩; exact absurd h (by decide))]
  rw [if_neg (by rintro ⟨-, h⟩; exact absurd h (by decide))]
  rw [if_pos (by decide)]
  exact hpv

set_option maxHeartbeats 1600000 in
/-- Claim C8: a pawn on its home column moving forward 1 or 2 columns along
its own row to an empty destination is judged legal with no condition on
the passed-over square: for white (column label '2', white's turn) and
black (column label '7', black's turn) alike, the move succeeds whatever
occupies the intermediate square. -/
theorem c8_pawn_double_step_ignores_block :
    (∀ (s : GameSt) (ch : Char) (r : Nat), s.gameState = "UNFINISHED" →
      s.turn = "WHITE" → letterIdx ch = some r → s.board r 1 = "WP" →
      s.board r 2 = "00" →
      (makeMove s (ch, '2') (ch, '3')).map Prod.snd = some true) ∧
    (∀ (s : GameSt) (ch : Char) (r : Nat), s.gameState = "UNFINISHED" →
      s.turn = "WHITE" → letterIdx ch = some r → s.board r 1 = "WP" →
      s.board r 3 = "00" →
      (makeMove s (ch, '2') (ch, '4')).map Prod.snd = some true) ∧
    (∀ (s : GameSt) (ch : Char) (r : Nat), s.gameState = "UNFINISHED" →
      s.turn = "BLACK" → letterIdx ch = some r → s.board r 6 = "BP" →
      s.board r 5 = "00" →
      (makeMove s (ch, '7') (ch, '6')).map Prod.snd = some true) ∧
    (∀ (s : GameSt) (ch : Char) (r : Nat), s.gameState = "UNFINISHED" →
      s.turn = "BLACK" → letterIdx ch = some r → s.board r 6 = "BP" →
      s.board r 4 = "00" →
      (makeMove s (ch, '7') (ch, '5')).map Prod.snd = some true) := by
  refine ⟨?_, ?_, ?_, ?_⟩
  · intro s ch r hgs ht hA hp hl
    refine makeMove_plain_true s ch ch '2' '3' r r 2 3 hgs hA hA (by decide)
      (by decide) (by omega) (by omega) (by omega) (by omega) hl ?_
    rw [show s.board r (2 - 1) = "WP" from hp]
    refine validateMove_pawnW ht (by omega) ?_
    unfold validatePawn
    rw [if_pos ⟨rfl, rfl, rfl⟩]
    decide
  · intro s ch r hgs ht hA hp hl
    refine makeMove_plain_true s ch ch '2' '4' r r 2 4 hgs hA hA (by decide)
      (by decide) (by omega) (by omega) (by omega) (by omega) hl ?_
    rw [show s.board r (2 - 1) = "WP" from hp]
    refine validateMove_pawnW ht (by omega) ?_
    unfold validatePawn
    rw [if_pos ⟨rfl, rfl, rfl⟩]
    decide
  · intro s ch r hgs ht hA hp hl
    refine makeMove_plain_true s ch ch '7' '6' r r 7 6 hgs hA hA (by decide)
      (by decide) (by omega) (by omega) (by omega) (by omega) hl ?_
    rw [show s.board r (7 - 1) = "BP" from hp]
    refine validateMove_pawnB ht (by omega) ?_
    unfold validatePawn
    rw [if_neg (by rintro ⟨h, -, -⟩; omega)]
    rw [if_pos ⟨rfl, rfl, rfl⟩]
    decide
  · intro s ch r hgs ht hA hp hl
    refine makeMove_plain_true s ch ch '7' '5' r r 7 5 hgs hA hA (by decide)
      (by decide) (by omega) (by omega) (by omega) (by omega) hl ?_
    rw [show s.board r (7 - 1) = "BP" from hp]
    refine validateMove_pawnB ht (by omega) ?_
    unfold validatePawn
    rw [if_neg (by rintro ⟨h, -, -⟩; omega)]
    rw [if_pos ⟨rfl, rfl, rfl⟩]
    decide

/-- Witness for C8: in `jumpState` the white pawn on c2 jumps to c4 over
the black knight parked on c3 and the move is accepted. -/
theorem c8_pawn_double_step_ignores_block_witness :
    jumpState.board 2 2 = "BN" ∧
    (makeMove jumpState ('c', '2') ('c', '4')).map Prod.snd = some true :=
  ⟨by decide,
   c8_pawn_double_step_ignores_block.2.1 jumpState 'c' 2 (by decide) (by decide)
     (by decide) (by decide) (by decide)⟩

set_option maxHeartbeats 1600000 in
/-- Claim C9: every cell of the initial board lies in the thirteen-string
cell alphabet, and a `make_move` call on a state whose board satisfies the
alphabet invariant returns (through any branch, exception included) a state
whose board still satisfies it: the writes performed are only '00' and a
value previously read from the board. -/
theorem c9_cell_alphabet_invariant :
    goodBoard initState.board ∧
    ∀ (s : GameSt) (sp ep : Char × Char), goodBoard s.board →
      goodBoard ((makeMove s sp ep).getD (s, false)).1.board := by
  constructor
  · decide
  · intro s sp ep hb
    rcases hA : letterIdx sp.1 with _ | sr
    · simp only [makeMove, hA]
      split_ifs <;> exact hb
    · rcases hB : letterIdx ep.1 with _ | er
      · simp only [makeMove, hA, hB]
        split_ifs <;> exact hb
      · rcases hD : digitVal sp.2 with _ | sd
        · simp only [makeMove, hA, hB, hD]
          split_ifs <;> exact hb
        · rcases hE : digitVal ep.2 with _ | ed
          · simp only [makeMove, hA, hB, hD, hE]
            split_ifs <;> exact hb
          · simp only [makeMove, hA, hB, hD, hE]
            split_ifs with g1 g2 g3 g4 g5 g6 g7 g8
            · exact hb
            · exact hb
            · exact hb
            · exact hb
            · exact hb
            · exact goodBoard_atomicLanding hb
            · exact goodBoard_setCell (goodBoard_atomicLanding hb) (by simp [alphabet])
            · refine goodBoard_setCell (goodBoard_setCell hb ?_) (by simp [alphabet])
              have hsr : sr < 8 := by omega
              have hsc : sd - 1 < 8 := by omega
              exact hb ⟨sr, hsr⟩ ⟨sd - 1, hsc⟩
            · exact hb

/-- Witness for C9: the board after the opening knight-file pawn move from
the initial state keeps the cell alphabet. -/
theorem c9_cell_alphabet_invariant_witness :
    goodBoard ((makeMove initState ('b', '2') ('b', '3')).getD
      (initState, false)).1.board :=
  c9_cell_alphabet_invariant.2 initState ('b', '2') ('b', '3') (by decide)

set_option maxHeartbeats 1600000 in
/-- Claim C10: a white pawn standing on the last column (digit label '8')
and a black pawn standing on the first column (digit label '1') have no
move at all: with that square as start, `make_move` never reports success,
for any end token and any state. -/
theorem c10_far_edge_pawns_immobile :
    (∀ (s : GameSt) (p q : Char × Char) (r : Nat),
      letterIdx p.1 = some r → p.2 = '8' → s.board r 7 = "WP" →
      ((makeMove s p q).map Prod.snd).getD false = false) ∧
    (∀ (s : GameSt) (p q : Char × Char) (r : Nat),
      letterIdx p.1 = some r → p.2 = '1' → s.board r 0 = "BP" →
      ((makeMove s p q).map Prod.snd).getD false = false) := by
  constructor
  · intro s p q r hA h8 hp
    have hr7 := letterIdx_le7 hA
    have hd8 : digitVal '8' = some 8 := by decide
    rcases hB : letterIdx q.1 with _ | er
    · simp only [makeMove, hA, hB]
      split_ifs <;> rfl
    · rcases hE : digitVal q.2 with _ | ed
      · simp only [makeMove, hA, hB, h8, hd8, hE]
        split_ifs <;> rfl
      · simp only [makeMove, hA, hB, h8, hd8, hE]
        by_cases h1 : s.gameState ≠ "UNFINISHED"
        · rw [if_pos h1]
          rfl
        · rw [if_neg h1]
          rw [if_neg (show ¬(8 = 0) by omega)]
          rw [if_neg (show ¬(7 < r ∨ 7 < 8 - 1) by omega)]
          by_cases h4 : ed = 0
          · rw [if_pos h4]
            rfl
          · rw [if_neg h4]
            by_cases h5 : 7 < er ∨ 7 < ed - 1
            · rw [if_pos h5]
              rfl
            · rw [if_neg h5]
              have hv : validateMove s (s.board r (8 - 1)) r (8 - 1)
                  (s.board er (ed - 1)) er (ed - 1) = false := by
                rw [show s.board r (8 - 1) = "WP" from hp]
                exact validateMove_wp7 s r (s.board er (ed - 1)) er (ed - 1) (by omega)
              rw [hv]
              rfl
  · intro s p q r hA h1t hp
    have hr7 := letterIdx_le7 hA
    have hd1 : digitVal '1' = some 1 := by decide
    rcases hB : letterIdx q.1 with _ | er
    · simp only [makeMove, hA, hB]
      split_ifs <;> rfl
    · rcases hE : digitVal q.2 with _ | ed
      · simp only [makeMove, hA, hB, h1t, hd1, hE]
        split_ifs <;> rfl
      · simp only [makeMove, hA, hB, h1t, hd1, hE]
        by_cases h1 : s.gameState ≠ "UNFINISHED"
        · rw [if_pos h1]
          rfl
        · rw [if_neg h1]
          rw [if_neg (show ¬(1 = 0) by omega)]
          rw [if_neg (show ¬(7 < r ∨ 7 < 1 - 1) by omega)]
          by_cases h4 : ed = 0
          · rw [if_pos h4]
            rfl
          · rw [if_neg h4]
            by_cases h5 : 7 < er ∨ 7 < ed - 1
            · rw [if_pos h5]
              rfl
            · rw [if_neg h5]
              have hv : validateMove s (s.board r (1 - 1)) r (1 - 1)
                  (s.board er (ed - 1)) er (ed - 1) = false := by
                rw [show s.board r (1 - 1) = "BP" from hp]
                exact validateMove_bp0 s r (s.board er (ed - 1)) er (ed - 1)
              rw [hv]
              rfl

/-- Witness for C10: in `edgePawnState` the stranded pawns on a8 and b1
cannot move (sample end tokens b8 and a1). -/
theorem c10_far_edge_pawns_immobile_witness :
    edgePawnState.board 0 7 = "WP" ∧ edgePawnState.board 1 0 = "BP" ∧
    ((makeMove edgePawnState ('a', '8') ('b', '8')).map Prod.snd).getD false = false ∧
    ((makeMove edgePawnState ('b', '1') ('a', '1')).map Prod.snd).getD false = false :=
  ⟨by decide, by decide,
   c10_far_edge_pawns_immobile.1 edgePawnState ('a', '8') ('b', '8') 0
     (by decide) rfl (by decide),
   c10_far_edge_pawns_immobile.2 edgePawnState ('b', '1') ('a', '1') 1
     (by decide) rfl (by decide)⟩

end ChessVar
